import Mathlib

/-!
Verification of the geometric overlap/coverage core of the `extract_cadence`
repository.

The Python sources embedded here (shallowly, over `ℝ`, with `Real.sqrt` for
`np.linalg.norm` and `Option ℝ` for a `float('inf')` fall-through result that
can never satisfy a `< 0` test):

* `released_crit/criteria_35/criteria_35_4.py` — signed-distance based
  test-point / pad overlap matcher (`Criteria35` namespace);
* `released_crit/criteria_37/criteria_37_4.py` — test-point / component
  coverage matcher (`Criteria37` namespace);
* `legacy_files/criteria_35_4.py` — rtree + shapely spatial-index matcher
  (`Legacy35` namespace; shapely's polygonal circle buffer is idealised as an
  exact closed disk, `intersects` as nonempty intersection of closed point
  sets, and the rtree broad phase as inclusive bounding-box overlap);
* `final_scripts/criteria_29/crit_29_3.py` — net-name cross-reference join
  (`Crit29` namespace; purely string data, hence fully computable).

DataFrames become lists of records whose fields are the columns the scripts
read; `df.empty` becomes `List.isEmpty`.
-/

noncomputable section

/-- `np.linalg.norm` of a 2-vector given by its components. -/
def norm2 (x y : ℝ) : ℝ := Real.sqrt (x ^ 2 + y ^ 2)

/-- Geometric shapes dispatched on by `_calculate_distance` in
`criteria_35_4.py` (string tags `'RECT'`, `'CIRCLE'`, `'LINE'` with their
parameter tuples). Rect carries center and FULL width/height as in the
source; circle carries center and radius; line carries its two endpoints. -/
inductive Shape where
  | rect (c : ℝ × ℝ) (w h : ℝ)
  | circle (c : ℝ × ℝ) (r : ℝ)
  | line (a b : ℝ × ℝ)

namespace Criteria35

/-- `_dist_point_to_segment` from `released_crit/criteria_35/criteria_35_4.py`:
minimum distance from point `p` to segment `[a, b]`; projection parameter
clamped to `[0, 1]`; point-to-point distance when `a == b`. -/
def dist_point_to_segment (p a b : ℝ × ℝ) : ℝ :=
  if a = b then norm2 (p.1 - a.1) (p.2 - a.2)
  else
    let seg : ℝ × ℝ := (b.1 - a.1, b.2 - a.2)
    let segLenSq : ℝ := seg.1 * seg.1 + seg.2 * seg.2
    let t0 : ℝ := ((p.1 - a.1) * seg.1 + (p.2 - a.2) * seg.2) / segLenSq
    let t : ℝ := max 0 (min 1 t0)
    norm2 (p.1 - (a.1 + t * seg.1)) (p.2 - (a.2 + t * seg.2))

/-- `_dist_signed_point_to_rect` from
`released_crit/criteria_35/criteria_35_4.py`: rectangle given by center and
full width/height; `max` of the per-axis deltas when both are `≤ 0`
(penetration), else the norm of the deltas clamped to `≥ 0`. -/
def dist_signed_point_to_rect (p c : ℝ × ℝ) (w h : ℝ) : ℝ :=
  let dx : ℝ := |p.1 - c.1| - w / 2
  let dy : ℝ := |p.2 - c.2| - h / 2
  if dx ≤ 0 ∧ dy ≤ 0 then max dx dy
  else norm2 (max dx 0) (max dy 0)

/-- `_calculate_distance` from `released_crit/criteria_35/criteria_35_4.py`.
`none` models the `return float('inf')` fall-through (commented "Should not
be reached" in the source), which can never pass a `distance < 0` test. -/
def calculate_distance : Shape → Shape → Option ℝ
  | .rect tc tw th, .rect pc pw ph =>
      let gx : ℝ := |tc.1 - pc.1| - (tw / 2 + pw / 2)
      let gy : ℝ := |tc.2 - pc.2| - (th / 2 + ph / 2)
      some (if gx ≤ 0 ∧ gy ≤ 0 then max gx gy
        else if 0 < gx ∧ gy ≤ 0 then gx
        else if gx ≤ 0 ∧ 0 < gy then gy
        else Real.sqrt (gx ^ 2 + gy ^ 2))
  | .rect tc tw th, .circle pc pr =>
      some (dist_signed_point_to_rect pc tc tw th - pr)
  | .circle tc tr, .rect pc pw ph =>
      some (dist_signed_point_to_rect tc pc pw ph - tr)
  | .circle tc tr, .circle pc pr =>
      some (norm2 (tc.1 - pc.1) (tc.2 - pc.2) - (tr + pr))
  | .line ta tb, .rect pc pw ph =>
      let dA : ℝ := dist_signed_point_to_rect ta pc pw ph
      let dB : ℝ := dist_signed_point_to_rect tb pc pw ph
      some (if min dA dB < 0 then min dA dB
        else
          let c1 : ℝ × ℝ := (pc.1 - pw / 2, pc.2 - ph / 2)
          let c2 : ℝ × ℝ := (pc.1 + pw / 2, pc.2 - ph / 2)
          let c3 : ℝ × ℝ := (pc.1 + pw / 2, pc.2 + ph / 2)
          let c4 : ℝ × ℝ := (pc.1 - pw / 2, pc.2 + ph / 2)
          min dA (min dB (min (dist_point_to_segment c1 ta tb)
            (min (dist_point_to_segment c2 ta tb)
              (min (dist_point_to_segment c3 ta tb)
                (dist_point_to_segment c4 ta tb))))))
  | .line ta tb, .circle pc pr =>
      some (dist_point_to_segment pc ta tb - pr)
  | _, _ => none

end Criteria35

/-- A row of the test-point table (output of `criteria_35_1.get_test_point_list`,
consumed by both `criteria_35_4` variants and by `criteria_37_4`). The
`shape_type` field is `Option` because only the legacy matcher reads it, via
`row.get('shape_type', 'RECT')`, and the column is absent from the table
`criteria_35_1` actually produces. -/
structure TpRow where
  testpoint_id : String
  x : ℝ
  y : ℝ
  width : ℝ
  height : ℝ
  layer : String
  shape_type : Option String

/-- A row of the pad table (output of the `get_pad_list` collaborator), with
the columns read by the released matcher (`pad_id`, `PAD_SHAPE_NAME`) and by
the legacy matcher (`component_id`, `PAD_STACK_NAME`). -/
structure PadRow where
  pad_id : String
  component_id : String
  pad_stack_name : String
  pad_shape_name : String
  x : ℝ
  y : ℝ
  width : ℝ
  height : ℝ
  layer : String

/-- An output row of `judge_tp_pad_pin_positions` in
`released_crit/criteria_35/criteria_35_4.py`. -/
structure TpPadRecord where
  testpoint_id : String
  pad_id : String
  layer : String
  distance : ℝ

namespace Criteria35

/-- The pad-shape classification inside the pad loop of
`judge_tp_pad_pin_positions` (`released_crit/criteria_35/criteria_35_4.py`,
lines 157-168): `'CIRCLE'` → circle of radius `width/2`; the fixed pattern
`'FIG_SHAPE SHAPE1_5X2_4'` → line with `(width, height)` as second endpoint;
anything else → rectangle. -/
def pad_shape_of (pad : PadRow) : Shape :=
  if pad.pad_shape_name = "CIRCLE" then .circle (pad.x, pad.y) (pad.width / 2)
  else if pad.pad_shape_name = "FIG_SHAPE SHAPE1_5X2_4" then
    .line (pad.x, pad.y) (pad.width, pad.height)
  else .rect (pad.x, pad.y) pad.width pad.height

/-- The test point shape: `judge_tp_pad_pin_positions` always builds a circle
with radius `width / 2` (the width column is the diameter). -/
def tp_shape_of (tp : TpRow) : Shape := .circle (tp.x, tp.y) (tp.width / 2)

/-- The inner double loop of `judge_tp_pad_pin_positions` for one layer
partition: every (tp, pad) pair whose distance is strictly negative yields a
record; there is no self-id exclusion in this matcher. The emptiness guard
mirrors the `continue` for an empty layer partition. -/
def match_one_layer (tps : List TpRow) (pads : List PadRow) (layerName : String) :
    List TpPadRecord :=
  if tps.isEmpty || pads.isEmpty then []
  else tps.flatMap fun tp =>
    pads.filterMap fun pad =>
      (calculate_distance (tp_shape_of tp) (pad_shape_of pad)).bind fun d =>
        if d < 0 then some ⟨tp.testpoint_id, pad.pad_id, layerName, d⟩ else none

/-- `judge_tp_pad_pin_positions` from
`released_crit/criteria_35/criteria_35_4.py`: empty-input guard, layer
partition by raw layer strings, then the nested overlap loops per layer
(TOP results followed by BOTTOM results, in iteration order). -/
def judge_tp_pad_pin_positions (tps : List TpRow) (pads : List PadRow) :
    List TpPadRecord :=
  if tps.isEmpty || pads.isEmpty then []
  else
    let tpTop := tps.filter fun t => t.layer == "SOLDERMASK_TOP"
    let tpBottom := tps.filter fun t => t.layer == "SOLDERMASK_BOTTOM"
    let padTop := pads.filter fun p => p.layer == "TOP"
    let padBottom := pads.filter fun p => p.layer == "BOTTOM"
    match_one_layer tpTop padTop "TOP" ++ match_one_layer tpBottom padBottom "BOTTOM"

end Criteria35

/-- A row of the component table (output of `criteria_37_3.get_component_list`,
consumed by `judge_tp_component_coverage`): bounding box corners and a shape
name. -/
structure CompRow where
  component_id : String
  shape_name : String
  min_x : ℝ
  min_y : ℝ
  max_x : ℝ
  max_y : ℝ
  layer : String

/-- An output row of `judge_tp_component_coverage` in
`released_crit/criteria_37/criteria_37_4.py`. -/
structure TpCompRecord where
  testpoint_id : String
  component_id : String
  layer : String
  distance : ℝ

namespace Criteria37

/-- The test-point layer normalisation map of
`released_crit/criteria_37/criteria_37_4.py` (`tp_df['layer'].map(...)`,
unmapped raw layers become NaN and are dropped). The same two raw strings
are the ones `criteria_35_4` partitions its test points by. -/
def tp_standard_layer (s : String) : Option String :=
  if s = "SOLDERMASK_TOP" then some "TOP"
  else if s = "SOLDERMASK_BOTTOM" then some "BOTTOM"
  else none

/-- The component layer normalisation map of `criteria_37_4`
(`component_df['layer'].map(...)`). -/
def comp_standard_layer (s : String) : Option String :=
  if s = "PLACE_BOUND_TOP" then some "TOP"
  else if s = "PLACE_BOUND_BOTTOM" then some "BOTTOM"
  else none

/-- `_dist_signed_point_to_rect` from
`released_crit/criteria_37/criteria_37_4.py`: rectangle given by min/max
corners; recovers center and half-extents, then the same dual-branch signed
distance as the `criteria_35_4` version. -/
def dist_signed_point_to_rect (p rectMin rectMax : ℝ × ℝ) : ℝ :=
  let c : ℝ × ℝ := ((rectMin.1 + rectMax.1) / 2, (rectMin.2 + rectMax.2) / 2)
  let hw : ℝ := (rectMax.1 - rectMin.1) / 2
  let hh : ℝ := (rectMax.2 - rectMin.2) / 2
  let dx : ℝ := |p.1 - c.1| - hw
  let dy : ℝ := |p.2 - c.2| - hh
  if dx ≤ 0 ∧ dy ≤ 0 then max dx dy
  else norm2 (max dx 0) (max dy 0)

/-- `_calculate_distance` from `released_crit/criteria_37/criteria_37_4.py`:
the test point must be a circle; `'RECT'`, `'OTHER'` and `'LINE'` component
shapes are all handled by the signed distance to the bounding box minus the
radius; everything else falls through to `float('inf')` (`none`). -/
def calculate_distance (tpShape : String) (tpC : ℝ × ℝ) (tpR : ℝ)
    (compShape : String) (compMin compMax : ℝ × ℝ) : Option ℝ :=
  if tpShape = "CIRCLE" then
    if compShape = "RECT" ∨ compShape = "OTHER" then
      some (dist_signed_point_to_rect tpC compMin compMax - tpR)
    else if compShape = "LINE" then
      some (dist_signed_point_to_rect tpC compMin compMax - tpR)
    else none
  else none

/-- The inner double loop of `judge_tp_component_coverage` for one layer
partition: pairs with `testpoint_id == component_id` are skipped; the
component shape tag is `'LINE'` or `'OTHER'`; records require a strictly
negative distance. -/
def match_one_layer (tps : List TpRow) (comps : List CompRow) (layerName : String) :
    List TpCompRecord :=
  if tps.isEmpty || comps.isEmpty then []
  else tps.flatMap fun tp =>
    comps.filterMap fun comp =>
      if tp.testpoint_id = comp.component_id then none
      else
        (calculate_distance "CIRCLE" (tp.x, tp.y) (tp.width / 2)
            (if comp.shape_name = "LINE" then "LINE" else "OTHER")
            (comp.min_x, comp.min_y) (comp.max_x, comp.max_y)).bind fun d =>
          if d < 0 then some ⟨tp.testpoint_id, comp.component_id, layerName, d⟩
          else none

/-- `judge_tp_component_coverage` from
`released_crit/criteria_37/criteria_37_4.py`: empty-input guard, layer
normalisation maps with NaN-dropping, partition into TOP/BOTTOM, then the
nested overlap loops per layer. -/
def judge_tp_component_coverage (tps : List TpRow) (comps : List CompRow) :
    List TpCompRecord :=
  if tps.isEmpty || comps.isEmpty then []
  else
    let tpTop := tps.filter fun t => tp_standard_layer t.layer == some "TOP"
    let tpBottom := tps.filter fun t => tp_standard_layer t.layer == some "BOTTOM"
    let compTop := comps.filter fun c => comp_standard_layer c.layer == some "TOP"
    let compBottom := comps.filter fun c => comp_standard_layer c.layer == some "BOTTOM"
    match_one_layer tpTop compTop "TOP" ++ match_one_layer tpBottom compBottom "BOTTOM"

end Criteria37

namespace Legacy35

/-- The set of plane points covered by a shape. Shapely geometries are closed
point sets: `Point(x,y).buffer(w/2)` is idealised as the exact closed disk,
`Polygon` of the four rectangle corners as the closed axis-aligned rectangle,
and `LineString` as the closed segment. -/
def toSet : Shape → Set (ℝ × ℝ)
  | .rect c w h => setOf fun p => |p.1 - c.1| ≤ w / 2 ∧ |p.2 - c.2| ≤ h / 2
  | .circle c r => setOf fun p => norm2 (p.1 - c.1) (p.2 - c.2) ≤ r
  | .line a b => setOf fun p => ∃ t : ℝ, 0 ≤ t ∧ t ≤ 1 ∧
      p = (a.1 + t * (b.1 - a.1), a.2 + t * (b.2 - a.2))

/-- `shape.bounds` — the axis-aligned bounding box `(min corner, max corner)`
of a shape, as used to populate and query the rtree index in
`legacy_files/criteria_35_4.py`. -/
def bounds : Shape → (ℝ × ℝ) × (ℝ × ℝ)
  | .rect c w h => ((c.1 - w / 2, c.2 - h / 2), (c.1 + w / 2, c.2 + h / 2))
  | .circle c r => ((c.1 - r, c.2 - r), (c.1 + r, c.2 + r))
  | .line a b => ((min a.1 b.1, min a.2 b.2), (max a.1 b.1, max a.2 b.2))

/-- The points inside a bounding box. -/
def boxSet (b : (ℝ × ℝ) × (ℝ × ℝ)) : Set (ℝ × ℝ) :=
  setOf fun p => b.1.1 ≤ p.1 ∧ p.1 ≤ b.2.1 ∧ b.1.2 ≤ p.2 ∧ p.2 ≤ b.2.2

/-- `idx.intersection(bounds)` of the rtree index: two bounding boxes are
broad-phase candidates when they overlap, inclusively (touching counts). -/
def bboxOverlap (b1 b2 : (ℝ × ℝ) × (ℝ × ℝ)) : Prop :=
  b1.1.1 ≤ b2.2.1 ∧ b2.1.1 ≤ b1.2.1 ∧ b1.1.2 ≤ b2.2.2 ∧ b2.1.2 ≤ b1.2.2

/-- Shapely's `intersects`: the two closed point sets share at least one
point. -/
def intersects (s t : Shape) : Prop := (toSet s ∩ toSet t).Nonempty

/-- `_create_tp_shape` from `legacy_files/criteria_35_4.py`:
`row.get('shape_type', 'RECT')` then `'CIRCLE'` → buffered point (disk),
`'LINE'` → `LineString` with `(width, height)` as second endpoint, anything
else → centered rectangle polygon. -/
def create_tp_shape (tp : TpRow) : Shape :=
  let st := tp.shape_type.getD "RECT"
  if st = "CIRCLE" then .circle (tp.x, tp.y) (tp.width / 2)
  else if st = "LINE" then .line (tp.x, tp.y) (tp.width, tp.height)
  else .rect (tp.x, tp.y) tp.width tp.height

/-- `_create_pad_shape` from `legacy_files/criteria_35_4.py`: dispatches on
`PAD_STACK_NAME`; `'CIRCLE'` → disk, anything else → centered rectangle. -/
def create_pad_shape (pad : PadRow) : Shape :=
  if pad.pad_stack_name = "CIRCLE" then .circle (pad.x, pad.y) (pad.width / 2)
  else .rect (pad.x, pad.y) pad.width pad.height

/-- The `(testpoint_id, component_id)` pair set produced by the legacy
`judge_tp_pad_pin_positions` (`legacy_files/criteria_35_4.py`, lines 60-105):
empty-input guard, then for every test point the rtree broad phase proposes
the pads whose bounding box overlaps the test point's, and a pair is reported
when the exact `intersects` check passes. The function performs no layer
filtering and no self-id exclusion, and records a fixed distance `-1.0`
(dropped here: the claim compares id-pair sets). -/
def pairs (tps : List TpRow) (pads : List PadRow) : Set (String × String) :=
  if tps.isEmpty || pads.isEmpty then ∅
  else setOf fun pr => ∃ tp ∈ tps, ∃ pad ∈ pads,
    bboxOverlap (bounds (create_tp_shape tp)) (bounds (create_pad_shape pad)) ∧
    intersects (create_tp_shape tp) (create_pad_shape pad) ∧
    pr = (tp.testpoint_id, pad.component_id)

/-- The same matcher with the broad phase removed: every (tp, pad) pair goes
straight to the exact `intersects` check. -/
def pairs_no_broad_phase (tps : List TpRow) (pads : List PadRow) :
    Set (String × String) :=
  if tps.isEmpty || pads.isEmpty then ∅
  else setOf fun pr => ∃ tp ∈ tps, ∃ pad ∈ pads,
    intersects (create_tp_shape tp) (create_pad_shape pad) ∧
    pr = (tp.testpoint_id, pad.component_id)

end Legacy35

/-- The `(subject_id, object_id)` pair set of the released (naive,
signed-distance) matcher, for comparison with the legacy spatial-index
matcher. -/
def naivePairSet (tps : List TpRow) (pads : List PadRow) : Set (String × String) :=
  setOf fun pr => ∃ r ∈ Criteria35.judge_tp_pad_pin_positions tps pads,
    pr = (r.testpoint_id, r.pad_id)

/-- A row of one of the two `(entity_id, net_name)` tables joined by
`judge_io_connector_in_tp_network`. A missing (NaN) net name is `none`. -/
structure NetRow where
  id : String
  net : Option String
deriving DecidableEq

/-- An output row of `judge_io_connector_in_tp_network`
(`final_scripts/criteria_29/crit_29_3.py`). -/
structure JoinRec where
  testpoint_id : String
  pin_id : String
  net_name : String
  matching_pairs : String
deriving DecidableEq

namespace Crit29

/-- The grouped cartesian product of `crit_29_3.judge_io_connector_in_tp_network`
(lines 50-75): for every net name occurring in either table (`set(...) |
set(...)`; a NaN net equals no cell, so it matches nothing), pair every left
row with that net with every right row with that net; `matching_pairs` is the
two ids joined by the fixed separator `" - "`. -/
def raw_pairs (tps pins : List NetRow) : List JoinRec :=
  ((tps.map (·.net) ++ pins.map (·.net)).dedup).flatMap fun optNet =>
    match optNet with
    | none => []
    | some n =>
      (tps.filter fun t => t.net == some n).flatMap fun t =>
        (pins.filter fun p => p.net == some n).map fun p =>
          ⟨t.id, p.id, n, t.id ++ " - " ++ p.id⟩

/-- `re.match(r'^\d', str(net))`: does the net name start with a digit? -/
def digit_leading (s : String) : Bool :=
  match s.data with
  | [] => false
  | c :: _ => c.isDigit

/-- The `_sort_key` flag of `crit_29_3.py`: digit-leading net names rank 0,
all others rank 1. -/
def sort_rank (r : JoinRec) : ℕ := if digit_leading r.net_name then 0 else 1

/-- The full `sort_values(by=['__sort_key', 'net_name', 'testpoint_id',
'pin_id'])` key, as a lexicographic tuple. -/
def sort_key (r : JoinRec) : ℕ ×ₗ String ×ₗ String ×ₗ String :=
  toLex (sort_rank r, toLex (r.net_name, toLex (r.testpoint_id, r.pin_id)))

/-- Row comparison by sort key. -/
def row_le (a b : JoinRec) : Prop := sort_key a ≤ sort_key b

instance : DecidableRel row_le := fun a b =>
  inferInstanceAs (Decidable (sort_key a ≤ sort_key b))

/-- `judge_io_connector_in_tp_network` from
`final_scripts/criteria_29/crit_29_3.py`: empty-input guard, grouped
cartesian product, `drop_duplicates` (keep first), then sort by
`(digit-leading flag, net_name, testpoint_id, pin_id)`. -/
def judge_io_connector_in_tp_network (tps pins : List NetRow) : List JoinRec :=
  if tps.isEmpty || pins.isEmpty then []
  else List.insertionSort row_le ((raw_pairs tps pins).dedup)

instance : IsTotal JoinRec Crit29.row_le :=
  ⟨fun a b => le_total (Crit29.sort_key a) (Crit29.sort_key b)⟩

instance : IsTrans JoinRec Crit29.row_le :=
  ⟨fun _ _ _ hab hbc => le_trans hab hbc⟩

end Crit29

namespace Criteria35

/-- The pad-side layer normalisation implicit in the partition of
`judge_tp_pad_pin_positions` (`pad_df[pad_df['layer'] == 'TOP']` /
`== 'BOTTOM'`): the raw pad layer strings are already the logical layer
names, all others are unmapped. -/
def pad_standard_layer (s : String) : Option String :=
  if s = "TOP" then some "TOP"
  else if s = "BOTTOM" then some "BOTTOM"
  else none

end Criteria35

/-! Concrete rows used as inputs of counterexamples and witnesses. -/

/-- A circular test point of radius 1 at the origin on the TOP solder mask,
whose id coincides with `padX`'s pad id. -/
def tpX : TpRow := ⟨"X", 0, 0, 2, 2, "SOLDERMASK_TOP", none⟩

/-- A 4×4 rectangular pad at the origin on TOP whose pad id coincides with
`tpX`'s test-point id. -/
def padX : PadRow := ⟨"X", "X", "RECT", "RECT", 0, 0, 4, 4, "TOP"⟩

/-- A circular test point of radius 1 at the origin on the TOP solder mask. -/
def tpT1 : TpRow := ⟨"T1", 0, 0, 2, 2, "SOLDERMASK_TOP", none⟩

/-- A component with bounding box `[-2, 2] × [-2, 2]` on the TOP placement
boundary. -/
def compC1 : CompRow := ⟨"C1", "OTHER", -2, -2, 2, 2, "PLACE_BOUND_TOP"⟩

/-- A circular pad of radius 1 at the origin whose raw layer is `BOTTOM`,
while `tpT1` sits on the TOP solder mask: the legacy matcher ignores layers,
the released matcher partitions by them. -/
def padP1 : PadRow := ⟨"P1", "P1", "CIRCLE", "CIRCLE", 0, 0, 2, 2, "BOTTOM"⟩

/-- A circular test point of radius 5 at the origin (width 10 = diameter). -/
def tpBig : TpRow := ⟨"TP1", 0, 0, 10, 10, "SOLDERMASK_TOP", none⟩

/-- A line-type pad (`PAD_SHAPE_NAME = 'FIG_SHAPE SHAPE1_5X2_4'`) whose
segment runs from the origin to `(1, 0)`, through the middle of `tpBig`. -/
def padLine : PadRow := ⟨"PL1", "PL1", "LINE", "FIG_SHAPE SHAPE1_5X2_4", 0, 0, 1, 0, "TOP"⟩

/-- Claim C2: the signed point-to-rectangle distance returns the maximum
per-axis delta when both deltas are `≤ 0` (and that value is `≤ 0`), and the
Euclidean norm of the deltas clamped to `≥ 0` otherwise (a value `≥ 0`);
moreover the min/max-corner variant of `criteria_37_4` computes the same
function as the center/size variant of `criteria_35_4`. -/
theorem C2_signed_point_to_rect_distance (p c : ℝ × ℝ) (w h : ℝ) (mn mx : ℝ × ℝ) :
    (Criteria35.dist_signed_point_to_rect p c w h =
      if |p.1 - c.1| - w / 2 ≤ 0 ∧ |p.2 - c.2| - h / 2 ≤ 0 then
        max (|p.1 - c.1| - w / 2) (|p.2 - c.2| - h / 2)
      else
        Real.sqrt ((max (|p.1 - c.1| - w / 2) 0) ^ 2 +
          (max (|p.2 - c.2| - h / 2) 0) ^ 2))
    ∧ (|p.1 - c.1| - w / 2 ≤ 0 → |p.2 - c.2| - h / 2 ≤ 0 →
        Criteria35.dist_signed_point_to_rect p c w h ≤ 0)
    ∧ (¬ (|p.1 - c.1| - w / 2 ≤ 0 ∧ |p.2 - c.2| - h / 2 ≤ 0) →
        0 ≤ Criteria35.dist_signed_point_to_rect p c w h)
    ∧ Criteria37.dist_signed_point_to_rect p mn mx =
        Criteria35.dist_signed_point_to_rect p
          ((mn.1 + mx.1) / 2, (mn.2 + mx.2) / 2) (mx.1 - mn.1) (mx.2 - mn.2) := by
  refine ⟨rfl, ?_, ?_, rfl⟩
  · intro hx hy
    unfold Criteria35.dist_signed_point_to_rect
    rw [if_pos ⟨hx, hy⟩]
    exact max_le hx hy
  · intro hcond
    unfold Criteria35.dist_signed_point_to_rect
    rw [if_neg hcond]
    exact Real.sqrt_nonneg _

/-- Claim C2, witness: at the origin inside a 4×4 rectangle the signed
distance is nonpositive. -/
theorem C2_signed_point_to_rect_distance_witness :
    Criteria35.dist_signed_point_to_rect (0, 0) (0, 0) 4 4 ≤ 0 :=
  (C2_signed_point_to_rect_distance (0, 0) (0, 0) 4 4 (0, 0) (0, 0)).2.1
    (by norm_num) (by norm_num)

/-- Claim C5: the rect/rect distance is the per-axis gap formula: with
`gap = |Δcenter| − (half-extents sum)` per axis, both gaps `≤ 0` gives
`max gapX gapY`; exactly one gap `≤ 0` gives the positive gap (which is the
max); otherwise the Euclidean norm of the two positive gaps. -/
theorem C5_rect_rect_distance (tc : ℝ × ℝ) (tw th : ℝ) (pc : ℝ × ℝ) (pw ph : ℝ) :
    Criteria35.calculate_distance (.rect tc tw th) (.rect pc pw ph) =
      some (
        let gx : ℝ := |tc.1 - pc.1| - (tw / 2 + pw / 2)
        let gy : ℝ := |tc.2 - pc.2| - (th / 2 + ph / 2)
        if gx ≤ 0 ∧ gy ≤ 0 then max gx gy
        else if (0 < gx ∧ gy ≤ 0) ∨ (gx ≤ 0 ∧ 0 < gy) then max gx gy
        else Real.sqrt (gx ^ 2 + gy ^ 2)) := by
  have key : ∀ gx gy : ℝ,
      (if gx ≤ 0 ∧ gy ≤ 0 then max gx gy
       else if 0 < gx ∧ gy ≤ 0 then gx
       else if gx ≤ 0 ∧ 0 < gy then gy
       else Real.sqrt (gx ^ 2 + gy ^ 2)) =
      (if gx ≤ 0 ∧ gy ≤ 0 then max gx gy
       else if (0 < gx ∧ gy ≤ 0) ∨ (gx ≤ 0 ∧ 0 < gy) then max gx gy
       else Real.sqrt (gx ^ 2 + gy ^ 2)) := by
    intro gx gy
    rcases le_or_lt gx 0 with h1 | h1 <;> rcases le_or_lt gy 0 with h2 | h2
    · rw [if_pos ⟨h1, h2⟩, if_pos ⟨h1, h2⟩]
    · rw [if_neg fun hc => (not_le.mpr h2) hc.2,
        if_neg fun hc => (not_lt.mpr h1) hc.1,
        if_pos ⟨h1, h2⟩,
        if_neg fun hc => (not_le.mpr h2) hc.2,
        if_pos (Or.inr ⟨h1, h2⟩),
        max_eq_right (h1.trans h2.le)]
    · rw [if_neg fun hc => (not_le.mpr h1) hc.1,
        if_pos ⟨h1, h2⟩,
        if_neg fun hc => (not_le.mpr h1) hc.1,
        if_pos (Or.inl ⟨h1, h2⟩),
        max_eq_left (h2.trans h1.le)]
    · have hor : ¬ ((0 < gx ∧ gy ≤ 0) ∨ (gx ≤ 0 ∧ 0 < gy)) := by
        rintro (⟨_, hb⟩ | ⟨ha, _⟩)
        · exact absurd hb (not_le.mpr h2)
        · exact absurd ha (not_le.mpr h1)
      rw [if_neg fun hc => (not_le.mpr h1) hc.1,
        if_neg fun hc => (not_le.mpr h2) hc.2,
        if_neg fun hc => (not_le.mpr h1) hc.1,
        if_neg hor,
        if_neg fun hc => (not_le.mpr h1) hc.1]
  exact congrArg some (key _ _)

/-- Claim C8: the circle/circle distance is the center distance minus the sum
of the radii, and it is symmetric in the two circles. -/
theorem C8_circle_circle_distance (cA cB : ℝ × ℝ) (rA rB : ℝ) :
    Criteria35.calculate_distance (.circle cA rA) (.circle cB rB) =
      some (norm2 (cA.1 - cB.1) (cA.2 - cB.2) - (rA + rB))
    ∧ Criteria35.calculate_distance (.circle cA rA) (.circle cB rB) =
      Criteria35.calculate_distance (.circle cB rB) (.circle cA rA) := by
  constructor
  · rfl
  · have h1 : norm2 (cA.1 - cB.1) (cA.2 - cB.2) = norm2 (cB.1 - cA.1) (cB.2 - cA.2) := by
      unfold norm2; congr 1; ring
    show some (norm2 (cA.1 - cB.1) (cA.2 - cB.2) - (rA + rB)) =
      some (norm2 (cB.1 - cA.1) (cB.2 - cA.2) - (rB + rA))
    rw [h1, add_comm rA rB]

/-- Characterisation of membership in one layer pass of the released
test-point/pad matcher. -/
theorem Criteria35.mem_match_one_layer_pad {tps : List TpRow} {pads : List PadRow}
    {L : String} {r : TpPadRecord} :
    r ∈ Criteria35.match_one_layer tps pads L ↔
      ∃ tp ∈ tps, ∃ pad ∈ pads, ∃ d : ℝ,
        Criteria35.calculate_distance (Criteria35.tp_shape_of tp)
          (Criteria35.pad_shape_of pad) = some d ∧ d < 0 ∧
        r = ⟨tp.testpoint_id, pad.pad_id, L, d⟩ := by
  unfold Criteria35.match_one_layer
  by_cases hg : (tps.isEmpty || pads.isEmpty) = true
  · rw [if_pos hg]
    simp only [List.not_mem_nil, false_iff]
    rintro ⟨tp, htp, pad, hpad, -⟩
    rcases Bool.or_eq_true_iff.mp hg with h | h
    · rw [List.isEmpty_iff.mp h] at htp; exact absurd htp (List.not_mem_nil tp)
    · rw [List.isEmpty_iff.mp h] at hpad; exact absurd hpad (List.not_mem_nil pad)
  · rw [if_neg hg]
    simp only [List.mem_flatMap, List.mem_filterMap, Option.bind_eq_some]
    constructor
    · rintro ⟨tp, htp, pad, hpad, d, hd, hite⟩
      by_cases hneg : d < 0
      · rw [if_pos hneg] at hite
        exact ⟨tp, htp, pad, hpad, d, hd, hneg, (Option.some_inj.mp hite).symm⟩
      · rw [if_neg hneg] at hite; exact absurd hite (Option.some_ne_none _).symm
    · rintro ⟨tp, htp, pad, hpad, d, hd, hneg, hr⟩
      exact ⟨tp, htp, pad, hpad, d, hd, by rw [if_pos hneg, hr]⟩

/-- Characterisation of membership in one layer pass of the
test-point/component matcher (which also skips equal-id pairs). -/
theorem Criteria37.mem_match_one_layer_comp {tps : List TpRow} {comps : List CompRow}
    {L : String} {r : TpCompRecord} :
    r ∈ Criteria37.match_one_layer tps comps L ↔
      ∃ tp ∈ tps, ∃ comp ∈ comps, ∃ d : ℝ,
        tp.testpoint_id ≠ comp.component_id ∧
        Criteria37.calculate_distance "CIRCLE" (tp.x, tp.y) (tp.width / 2)
          (if comp.shape_name = "LINE" then "LINE" else "OTHER")
          (comp.min_x, comp.min_y) (comp.max_x, comp.max_y) = some d ∧ d < 0 ∧
        r = ⟨tp.testpoint_id, comp.component_id, L, d⟩ := by
  unfold Criteria37.match_one_layer
  by_cases hg : (tps.isEmpty || comps.isEmpty) = true
  · rw [if_pos hg]
    simp only [List.not_mem_nil, false_iff]
    rintro ⟨tp, htp, comp, hcomp, -⟩
    rcases Bool.or_eq_true_iff.mp hg with h | h
    · rw [List.isEmpty_iff.mp h] at htp; exact absurd htp (List.not_mem_nil tp)
    · rw [List.isEmpty_iff.mp h] at hcomp; exact absurd hcomp (List.not_mem_nil comp)
  · rw [if_neg hg]
    simp only [List.mem_flatMap, List.mem_filterMap]
    constructor
    · rintro ⟨tp, htp, comp, hcomp, hite⟩
      by_cases hid : tp.testpoint_id = comp.component_id
      · rw [if_pos hid] at hite; exact absurd hite (Option.some_ne_none _).symm
      · rw [if_neg hid] at hite
        rcases Option.bind_eq_some.mp hite with ⟨d, hd, hite2⟩
        by_cases hneg : d < 0
        · rw [if_pos hneg] at hite2
          exact ⟨tp, htp, comp, hcomp, d, hid, hd, hneg, (Option.some_inj.mp hite2).symm⟩
        · rw [if_neg hneg] at hite2; exact absurd hite2 (Option.some_ne_none _).symm
    · rintro ⟨tp, htp, comp, hcomp, d, hid, hd, hneg, hr⟩
      refine ⟨tp, htp, comp, hcomp, ?_⟩
      rw [if_neg hid, hd]
      show (if d < 0 then some (⟨tp.testpoint_id, comp.component_id, L, d⟩ : TpCompRecord) else none) = some r
      rw [if_pos hneg, hr]

/-- Characterisation of membership in the released test-point/pad matcher:
a record comes from a test point and a pad of the input tables, lying in the
same layer partition, whose shape-pair distance is strictly negative. -/
theorem Criteria35.mem_judge_tp_pad_iff {tps : List TpRow} {pads : List PadRow}
    {r : TpPadRecord} :
    r ∈ Criteria35.judge_tp_pad_pin_positions tps pads ↔
      ∃ tp ∈ tps, ∃ pad ∈ pads, ∃ L : String, ∃ d : ℝ,
        ((L = "TOP" ∧ tp.layer = "SOLDERMASK_TOP" ∧ pad.layer = "TOP") ∨
         (L = "BOTTOM" ∧ tp.layer = "SOLDERMASK_BOTTOM" ∧ pad.layer = "BOTTOM")) ∧
        Criteria35.calculate_distance (Criteria35.tp_shape_of tp)
          (Criteria35.pad_shape_of pad) = some d ∧ d < 0 ∧
        r = ⟨tp.testpoint_id, pad.pad_id, L, d⟩ := by
  unfold Criteria35.judge_tp_pad_pin_positions
  by_cases hg : (tps.isEmpty || pads.isEmpty) = true
  · rw [if_pos hg]
    simp only [List.not_mem_nil, false_iff]
    rintro ⟨tp, htp, pad, hpad, -⟩
    rcases Bool.or_eq_true_iff.mp hg with h | h
    · rw [List.isEmpty_iff.mp h] at htp; exact absurd htp (List.not_mem_nil tp)
    · rw [List.isEmpty_iff.mp h] at hpad; exact absurd hpad (List.not_mem_nil pad)
  · rw [if_neg hg]
    simp only [List.mem_append, Criteria35.mem_match_one_layer_pad, List.mem_filter,
      beq_iff_eq]
    constructor
    · rintro (⟨tp, ⟨htp, htpl⟩, pad, ⟨hpad, hpadl⟩, d, hd, hneg, hr⟩ |
        ⟨tp, ⟨htp, htpl⟩, pad, ⟨hpad, hpadl⟩, d, hd, hneg, hr⟩)
      · exact ⟨tp, htp, pad, hpad, "TOP", d, Or.inl ⟨rfl, htpl, hpadl⟩, hd, hneg, hr⟩
      · exact ⟨tp, htp, pad, hpad, "BOTTOM", d, Or.inr ⟨rfl, htpl, hpadl⟩, hd, hneg, hr⟩
    · rintro ⟨tp, htp, pad, hpad, L, d, (⟨hL, htpl, hpadl⟩ | ⟨hL, htpl, hpadl⟩), hd, hneg, hr⟩
      · exact Or.inl ⟨tp, ⟨htp, htpl⟩, pad, ⟨hpad, hpadl⟩, d, hd, hneg, by rw [hr, hL]⟩
      · exact Or.inr ⟨tp, ⟨htp, htpl⟩, pad, ⟨hpad, hpadl⟩, d, hd, hneg, by rw [hr, hL]⟩

/-- Characterisation of membership in the test-point/component matcher:
a record comes from a test point and a component of the input tables whose
normalised layers agree, with distinct ids and strictly negative distance. -/
theorem Criteria37.mem_judge_tp_comp_iff {tps : List TpRow} {comps : List CompRow}
    {r : TpCompRecord} :
    r ∈ Criteria37.judge_tp_component_coverage tps comps ↔
      ∃ tp ∈ tps, ∃ comp ∈ comps, ∃ L : String, ∃ d : ℝ,
        ((L = "TOP" ∧ Criteria37.tp_standard_layer tp.layer = some "TOP" ∧
            Criteria37.comp_standard_layer comp.layer = some "TOP") ∨
         (L = "BOTTOM" ∧ Criteria37.tp_standard_layer tp.layer = some "BOTTOM" ∧
            Criteria37.comp_standard_layer comp.layer = some "BOTTOM")) ∧
        tp.testpoint_id ≠ comp.component_id ∧
        Criteria37.calculate_distance "CIRCLE" (tp.x, tp.y) (tp.width / 2)
          (if comp.shape_name = "LINE" then "LINE" else "OTHER")
          (comp.min_x, comp.min_y) (comp.max_x, comp.max_y) = some d ∧ d < 0 ∧
        r = ⟨tp.testpoint_id, comp.component_id, L, d⟩ := by
  unfold Criteria37.judge_tp_component_coverage
  by_cases hg : (tps.isEmpty || comps.isEmpty) = true
  · rw [if_pos hg]
    simp only [List.not_mem_nil, false_iff]
    rintro ⟨tp, htp, comp, hcomp, -⟩
    rcases Bool.or_eq_true_iff.mp hg with h | h
    · rw [List.isEmpty_iff.mp h] at htp; exact absurd htp (List.not_mem_nil tp)
    · rw [List.isEmpty_iff.mp h] at hcomp; exact absurd hcomp (List.not_mem_nil comp)
  · rw [if_neg hg]
    simp only [List.mem_append, Criteria37.mem_match_one_layer_comp, List.mem_filter,
      beq_iff_eq]
    constructor
    · rintro (⟨tp, ⟨htp, htpl⟩, comp, ⟨hcomp, hcompl⟩, d, hid, hd, hneg, hr⟩ |
        ⟨tp, ⟨htp, htpl⟩, comp, ⟨hcomp, hcompl⟩, d, hid, hd, hneg, hr⟩)
      · exact ⟨tp, htp, comp, hcomp, "TOP", d, Or.inl ⟨rfl, htpl, hcompl⟩, hid, hd, hneg, hr⟩
      · exact ⟨tp, htp, comp, hcomp, "BOTTOM", d, Or.inr ⟨rfl, htpl, hcompl⟩, hid, hd, hneg, hr⟩
    · rintro ⟨tp, htp, comp, hcomp, L, d,
        (⟨hL, htpl, hcompl⟩ | ⟨hL, htpl, hcompl⟩), hid, hd, hneg, hr⟩
      · exact Or.inl ⟨tp, ⟨htp, htpl⟩, comp, ⟨hcomp, hcompl⟩, d, hid, hd, hneg, by rw [hr, hL]⟩
      · exact Or.inr ⟨tp, ⟨htp, htpl⟩, comp, ⟨hcomp, hcompl⟩, d, hid, hd, hneg, by rw [hr, hL]⟩

/-- The released matcher's distance between `tpX` (circle of radius 1 at the
origin) and `padX` (4×4 rectangle at the origin): penetration branch,
`max (-2) (-2) - 1 = -3`. -/
theorem calc_tpX_padX :
    Criteria35.calculate_distance (Criteria35.tp_shape_of tpX)
      (Criteria35.pad_shape_of padX) = some (-3) := by
  have h1 : Criteria35.tp_shape_of tpX = .circle (0, 0) 1 := by
    unfold tpX Criteria35.tp_shape_of
    norm_num
  have h2 : Criteria35.pad_shape_of padX = .rect (0, 0) 4 4 := by
    unfold padX Criteria35.pad_shape_of
    simp
  rw [h1, h2]
  show some (Criteria35.dist_signed_point_to_rect (0, 0) (0, 0) 4 4 - 1) = some (-3)
  unfold Criteria35.dist_signed_point_to_rect
  norm_num

/-- The record produced by the released matcher on the single-row tables
`[tpX]`, `[padX]`: subject id and object id are both `"X"`. -/
theorem memX :
    (⟨"X", "X", "TOP", -3⟩ : TpPadRecord) ∈
      Criteria35.judge_tp_pad_pin_positions [tpX] [padX] :=
  Criteria35.mem_judge_tp_pad_iff.mpr
    ⟨tpX, List.mem_singleton_self _, padX, List.mem_singleton_self _, "TOP", -3,
      Or.inl ⟨rfl, rfl, rfl⟩, calc_tpX_padX, by norm_num, rfl⟩

/-- The component matcher's distance between `tpT1` (circle of radius 1 at
the origin) and `compC1` (bounding box `[-2,2]²`): `max (-2) (-2) - 1 = -3`. -/
theorem calc_tpT1_compC1 :
    Criteria37.calculate_distance "CIRCLE" (tpT1.x, tpT1.y) (tpT1.width / 2)
      (if compC1.shape_name = "LINE" then "LINE" else "OTHER")
      (compC1.min_x, compC1.min_y) (compC1.max_x, compC1.max_y) = some (-3) := by
  have hshape : (if compC1.shape_name = "LINE" then "LINE" else "OTHER") = "OTHER" := by
    simp [compC1]
  rw [hshape]
  show Criteria37.calculate_distance "CIRCLE" (0, 0) (2 / 2) "OTHER" (-2, -2) (2, 2) =
    some (-3)
  unfold Criteria37.calculate_distance Criteria37.dist_signed_point_to_rect
  norm_num

/-- The record produced by the component matcher on the single-row tables
`[tpT1]`, `[compC1]`. -/
theorem memT1C1 :
    (⟨"T1", "C1", "TOP", -3⟩ : TpCompRecord) ∈
      Criteria37.judge_tp_component_coverage [tpT1] [compC1] :=
  Criteria37.mem_judge_tp_comp_iff.mpr
    ⟨tpT1, List.mem_singleton_self _, compC1, List.mem_singleton_self _, "TOP", -3,
      Or.inl ⟨rfl, by simp [tpT1, Criteria37.tp_standard_layer],
        by simp [compC1, Criteria37.comp_standard_layer]⟩,
      by simp [tpT1, compC1], calc_tpT1_compC1, by norm_num, rfl⟩

/-- Claim C7: every record emitted by either pairwise matcher has a strictly
negative distance; a pair whose computed distance is zero or positive is
never reported. -/
theorem C7_overlap_records_strictly_negative :
    (∀ (tps : List TpRow) (pads : List PadRow) (r : TpPadRecord),
        r ∈ Criteria35.judge_tp_pad_pin_positions tps pads → r.distance < 0)
    ∧ (∀ (tps : List TpRow) (comps : List CompRow) (r : TpCompRecord),
        r ∈ Criteria37.judge_tp_component_coverage tps comps → r.distance < 0) := by
  constructor
  · intro tps pads r hr
    rcases Criteria35.mem_judge_tp_pad_iff.mp hr with ⟨tp, -, pad, -, L, d, -, -, hneg, hr'⟩
    rw [hr']
    exact hneg
  · intro tps comps r hr
    rcases Criteria37.mem_judge_tp_comp_iff.mp hr with ⟨tp, -, comp, -, L, d, -, -, -, hneg, hr'⟩
    rw [hr']
    exact hneg

/-- Claim C7, witness: a concrete record emitted by the test-point/pad
matcher, whose distance is negative by the theorem. -/
theorem C7_overlap_records_strictly_negative_witness :
    (⟨"X", "X", "TOP", -3⟩ : TpPadRecord) ∈
      Criteria35.judge_tp_pad_pin_positions [tpX] [padX] ∧
    (⟨"X", "X", "TOP", -3⟩ : TpPadRecord).distance < 0 :=
  ⟨memX, C7_overlap_records_strictly_negative.1 [tpX] [padX] _ memX⟩

/-- Claim C6: every record emitted by either matcher pairs a subject and an
object drawn from the input tables whose raw layers normalise to the same
logical layer (the record's layer); in particular no TOP-normalised subject
is ever paired with a BOTTOM-normalised object, and entities whose raw layer
does not normalise never witness a record. -/
theorem C6_layer_isolation :
    (∀ (tps : List TpRow) (pads : List PadRow) (r : TpPadRecord),
        r ∈ Criteria35.judge_tp_pad_pin_positions tps pads →
        ∃ tp ∈ tps, ∃ pad ∈ pads,
          r.testpoint_id = tp.testpoint_id ∧ r.pad_id = pad.pad_id ∧
          Criteria37.tp_standard_layer tp.layer = some r.layer ∧
          Criteria35.pad_standard_layer pad.layer = some r.layer)
    ∧ (∀ (tps : List TpRow) (comps : List CompRow) (r : TpCompRecord),
        r ∈ Criteria37.judge_tp_component_coverage tps comps →
        ∃ tp ∈ tps, ∃ comp ∈ comps,
          r.testpoint_id = tp.testpoint_id ∧ r.component_id = comp.component_id ∧
          Criteria37.tp_standard_layer tp.layer = some r.layer ∧
          Criteria37.comp_standard_layer comp.layer = some r.layer) := by
  constructor
  · intro tps pads r hr
    rcases Criteria35.mem_judge_tp_pad_iff.mp hr with
      ⟨tp, htp, pad, hpad, L, d, hlay, -, -, hr'⟩
    subst hr'
    rcases hlay with ⟨hL, htpl, hpadl⟩ | ⟨hL, htpl, hpadl⟩ <;> subst hL
    · exact ⟨tp, htp, pad, hpad, rfl, rfl,
        by rw [htpl]; simp [Criteria37.tp_standard_layer],
        by rw [hpadl]; simp [Criteria35.pad_standard_layer]⟩
    · exact ⟨tp, htp, pad, hpad, rfl, rfl,
        by rw [htpl]; simp [Criteria37.tp_standard_layer],
        by rw [hpadl]; simp [Criteria35.pad_standard_layer]⟩
  · intro tps comps r hr
    rcases Criteria37.mem_judge_tp_comp_iff.mp hr with
      ⟨tp, htp, comp, hcomp, L, d, hlay, -, -, -, hr'⟩
    subst hr'
    rcases hlay with ⟨hL, htpl, hcompl⟩ | ⟨hL, htpl, hcompl⟩ <;> subst hL
    · exact ⟨tp, htp, comp, hcomp, rfl, rfl, htpl, hcompl⟩
    · exact ⟨tp, htp, comp, hcomp, rfl, rfl, htpl, hcompl⟩

/-- Claim C6, witness: the concrete record of `memT1C1` pairs entities that
both normalise to the TOP layer. -/
theorem C6_layer_isolation_witness :
    ∃ tp ∈ [tpT1], ∃ comp ∈ [compC1],
      (⟨"T1", "C1", "TOP", -3⟩ : TpCompRecord).testpoint_id = tp.testpoint_id ∧
      (⟨"T1", "C1", "TOP", -3⟩ : TpCompRecord).component_id = comp.component_id ∧
      Criteria37.tp_standard_layer tp.layer =
        some (⟨"T1", "C1", "TOP", -3⟩ : TpCompRecord).layer ∧
      Criteria37.comp_standard_layer comp.layer =
        some (⟨"T1", "C1", "TOP", -3⟩ : TpCompRecord).layer :=
  C6_layer_isolation.2 [tpT1] [compC1] _ memT1C1

/-- Claim C3, counterexample: the released test-point/pad matcher performs no
self-id exclusion — on a test point and a pad that share the id `"X"` and
overlap, it returns a record whose subject id equals its object id. -/
theorem C3_counterexample :
    ∃ r ∈ Criteria35.judge_tp_pad_pin_positions [tpX] [padX],
      r.testpoint_id = r.pad_id :=
  ⟨⟨"X", "X", "TOP", -3⟩, memX, rfl⟩

/-- Claim C3 (amended): the test-point/component matcher
(`judge_tp_component_coverage`) never emits a record whose subject id equals
its object id; the released test-point/pad matcher has no such exclusion. -/
theorem C3_component_matcher_excludes_self_pairs :
    ∀ (tps : List TpRow) (comps : List CompRow) (r : TpCompRecord),
      r ∈ Criteria37.judge_tp_component_coverage tps comps →
      r.testpoint_id ≠ r.component_id := by
  intro tps comps r hr
  rcases Criteria37.mem_judge_tp_comp_iff.mp hr with ⟨tp, -, comp, -, L, d, -, hid, -, -, hr'⟩
  subst hr'
  exact hid

/-- Claim C3, witness: a concrete record emitted by the component matcher,
whose ids differ by the theorem. -/
theorem C3_component_matcher_excludes_self_pairs_witness :
    (⟨"T1", "C1", "TOP", -3⟩ : TpCompRecord) ∈
      Criteria37.judge_tp_component_coverage [tpT1] [compC1] ∧
    (⟨"T1", "C1", "TOP", -3⟩ : TpCompRecord).testpoint_id ≠
      (⟨"T1", "C1", "TOP", -3⟩ : TpCompRecord).component_id :=
  ⟨memT1C1,
    C3_component_matcher_excludes_self_pairs [tpT1] [compC1] _ memT1C1⟩

/-- Claim C4: the dispatch of `criteria_35_4` has no branch for a circle
subject against a line object — it falls through to `float('inf')` (`none`),
so a circular test point against a line-type pad is never reported, even when
the segment passes through the circle's center (where the spec's formula,
point-to-segment distance minus radius, is `-5 < 0`). -/
theorem C4_circle_vs_line_dispatch_falls_through :
    (∀ (c : ℝ × ℝ) (r : ℝ) (a b : ℝ × ℝ),
        Criteria35.calculate_distance (.circle c r) (.line a b) = none)
    ∧ Criteria35.dist_point_to_segment (0, 0) (0, 0) (1, 0) - 5 = -5
    ∧ Criteria35.judge_tp_pad_pin_positions [tpBig] [padLine] = [] := by
  refine ⟨fun c r a b => rfl, ?_, ?_⟩
  · have hne : ((0 : ℝ), (0 : ℝ)) ≠ ((1 : ℝ), (0 : ℝ)) := by
      intro hc
      have h := congrArg Prod.fst hc
      norm_num at h
    have hmin : min (1 : ℝ) 0 = 0 := min_eq_right (by norm_num)
    have hmax : max (0 : ℝ) 0 = 0 := max_self 0
    unfold Criteria35.dist_point_to_segment
    rw [if_neg hne]
    norm_num [norm2, hmin, hmax]
  · rw [List.eq_nil_iff_forall_not_mem]
    intro r hr
    rcases Criteria35.mem_judge_tp_pad_iff.mp hr with ⟨tp, htp, pad, hpad, L, d, -, hd, -, -⟩
    obtain rfl := List.mem_singleton.mp htp
    obtain rfl := List.mem_singleton.mp hpad
    have hps : Criteria35.pad_shape_of padLine = .line (0, 0) (1, 0) := by
      unfold padLine Criteria35.pad_shape_of
      simp
    rw [hps] at hd
    have hnone : Criteria35.calculate_distance (Criteria35.tp_shape_of tpBig)
        (.line (0, 0) (1, 0)) = none := rfl
    rw [hnone] at hd
    exact Option.noConfusion hd

/-- A convex combination `a + t * (b - a)` with `t ∈ [0, 1]` lies between
`min a b` and `max a b`. -/
theorem convex_combination_bounds (a b t : ℝ) (h0 : 0 ≤ t) (h1 : t ≤ 1) :
    min a b ≤ a + t * (b - a) ∧ a + t * (b - a) ≤ max a b := by
  rcases le_total a b with hab | hab
  · rw [min_eq_left hab, max_eq_right hab]
    constructor <;> nlinarith
  · rw [min_eq_right hab, max_eq_left hab]
    constructor <;> nlinarith

/-- Every point of a shape lies inside the shape's bounding box. -/
theorem Legacy35.toSet_subset_box (s : Shape) :
    Legacy35.toSet s ⊆ Legacy35.boxSet (Legacy35.bounds s) := by
  intro p hp
  cases s with
  | rect c w h =>
    rcases hp with ⟨hx, hy⟩
    rcases abs_le.mp hx with ⟨hx1, hx2⟩
    rcases abs_le.mp hy with ⟨hy1, hy2⟩
    simp only [Legacy35.bounds, Legacy35.boxSet, Set.mem_setOf_eq]
    exact ⟨by linarith, by linarith, by linarith, by linarith⟩
  | circle c r =>
    have hp' : norm2 (p.1 - c.1) (p.2 - c.2) ≤ r := hp
    have hx : |p.1 - c.1| ≤ r := by
      have h1 : Real.sqrt ((p.1 - c.1) ^ 2) ≤ norm2 (p.1 - c.1) (p.2 - c.2) :=
        Real.sqrt_le_sqrt (le_add_of_nonneg_right (sq_nonneg _))
      rw [Real.sqrt_sq_eq_abs] at h1
      exact h1.trans hp'
    have hy : |p.2 - c.2| ≤ r := by
      have h1 : Real.sqrt ((p.2 - c.2) ^ 2) ≤ norm2 (p.1 - c.1) (p.2 - c.2) :=
        Real.sqrt_le_sqrt (le_add_of_nonneg_left (sq_nonneg _))
      rw [Real.sqrt_sq_eq_abs] at h1
      exact h1.trans hp'
    rcases abs_le.mp hx with ⟨hx1, hx2⟩
    rcases abs_le.mp hy with ⟨hy1, hy2⟩
    simp only [Legacy35.bounds, Legacy35.boxSet, Set.mem_setOf_eq]
    exact ⟨by linarith, by linarith, by linarith, by linarith⟩
  | line a b =>
    rcases hp with ⟨t, ht0, ht1, hpt⟩
    subst hpt
    rcases convex_combination_bounds a.1 b.1 t ht0 ht1 with ⟨hx1, hx2⟩
    rcases convex_combination_bounds a.2 b.2 t ht0 ht1 with ⟨hy1, hy2⟩
    simp only [Legacy35.bounds, Legacy35.boxSet, Set.mem_setOf_eq]
    exact ⟨hx1, hx2, hy1, hy2⟩

/-- Two boxes that share a point overlap. -/
theorem boxes_overlap_of_common_point {b1 b2 : (ℝ × ℝ) × (ℝ × ℝ)} {p : ℝ × ℝ}
    (h1 : p ∈ Legacy35.boxSet b1) (h2 : p ∈ Legacy35.boxSet b2) :
    Legacy35.bboxOverlap b1 b2 := by
  rcases h1 with ⟨a1, a2, a3, a4⟩
  rcases h2 with ⟨c1, c2, c3, c4⟩
  exact ⟨by linarith, by linarith, by linarith, by linarith⟩

/-- Claim C1, counterexample: on a test point on the TOP solder mask and a
pad whose raw layer is BOTTOM, placed concentrically, the legacy
spatial-index matcher (which ignores layers and uses `intersects`) reports
the pair while the released naive signed-distance matcher (which partitions
by layer) reports nothing — the two result sets differ. -/
theorem C1_counterexample :
    Legacy35.pairs [tpT1] [padP1] ≠ naivePairSet [tpT1] [padP1] := by
  intro h
  have hts : Legacy35.create_tp_shape tpT1 = .rect (0, 0) 2 2 := by
    unfold tpT1 Legacy35.create_tp_shape
    simp
  have hps : Legacy35.create_pad_shape padP1 = .circle (0, 0) 1 := by
    unfold padP1 Legacy35.create_pad_shape
    norm_num
  have hmem : ("T1", "P1") ∈ Legacy35.pairs [tpT1] [padP1] := by
    unfold Legacy35.pairs
    rw [if_neg (by simp)]
    refine ⟨tpT1, List.mem_singleton_self _, padP1, List.mem_singleton_self _,
      ?_, ?_, rfl⟩
    · rw [hts, hps]
      unfold Legacy35.bounds Legacy35.bboxOverlap
      norm_num
    · refine ⟨(0, 0), ?_, ?_⟩
      · rw [hts]
        show |(0 : ℝ) - 0| ≤ 2 / 2 ∧ |(0 : ℝ) - 0| ≤ 2 / 2
        norm_num
      · rw [hps]
        show norm2 ((0 : ℝ) - 0) ((0 : ℝ) - 0) ≤ 1
        norm_num [norm2]
  rw [h] at hmem
  rcases hmem with ⟨r, hr, -⟩
  rcases Criteria35.mem_judge_tp_pad_iff.mp hr with ⟨tp, htp, pad, hpad, L, d, hlay, -, -, -⟩
  obtain rfl := List.mem_singleton.mp htp
  obtain rfl := List.mem_singleton.mp hpad
  rcases hlay with ⟨-, -, hpadl⟩ | ⟨-, htpl, -⟩
  · exact absurd hpadl (by simp [padP1])
  · exact absurd htpl (by simp [tpT1])

/-- Claim C1 (amended): within the legacy spatial-index matcher, the rtree
broad phase does not change the result set — the pairs surviving bounding-box
pruning plus the exact `intersects` check are exactly the pairs passing the
exact check on every (test point, pad) combination, because two intersecting
shapes always have overlapping bounding boxes. (The legacy matcher's results
do not in general equal the released naive matcher's: see the
counterexample.) -/
theorem C1_broad_phase_preserves_result_set (tps : List TpRow) (pads : List PadRow) :
    Legacy35.pairs tps pads = Legacy35.pairs_no_broad_phase tps pads := by
  unfold Legacy35.pairs Legacy35.pairs_no_broad_phase
  by_cases hg : (tps.isEmpty || pads.isEmpty) = true
  · rw [if_pos hg, if_pos hg]
  · rw [if_neg hg, if_neg hg]
    ext pr
    constructor
    · rintro ⟨tp, htp, pad, hpad, -, hint, hpr⟩
      exact ⟨tp, htp, pad, hpad, hint, hpr⟩
    · rintro ⟨tp, htp, pad, hpad, hint, hpr⟩
      rcases hint with ⟨q, hq1, hq2⟩
      exact ⟨tp, htp, pad, hpad,
        boxes_overlap_of_common_point (Legacy35.toSet_subset_box _ hq1)
          (Legacy35.toSet_subset_box _ hq2),
        ⟨q, hq1, hq2⟩, hpr⟩

/-- Claim C10: an empty subject table or an empty object table makes each
pairwise matcher return the empty result table rather than fail. -/
theorem C10_empty_inputs_yield_empty_results :
    (∀ pads, Criteria35.judge_tp_pad_pin_positions [] pads = [])
    ∧ (∀ tps, Criteria35.judge_tp_pad_pin_positions tps [] = [])
    ∧ (∀ comps, Criteria37.judge_tp_component_coverage [] comps = [])
    ∧ (∀ tps, Criteria37.judge_tp_component_coverage tps [] = []) := by
  refine ⟨fun pads => ?_, fun tps => ?_, fun comps => ?_, fun tps => ?_⟩ <;>
    simp [Criteria35.judge_tp_pad_pin_positions, Criteria37.judge_tp_component_coverage]

/-- Characterisation of membership in the grouped cartesian product: a row
appears iff a left entity and a right entity share a (present) net name. -/
theorem Crit29.mem_raw_pairs {tps pins : List NetRow} {r : JoinRec} :
    r ∈ Crit29.raw_pairs tps pins ↔
      ∃ t ∈ tps, ∃ p ∈ pins, ∃ n : String,
        t.net = some n ∧ p.net = some n ∧
        r = ⟨t.id, p.id, n, t.id ++ " - " ++ p.id⟩ := by
  unfold Crit29.raw_pairs
  simp only [List.mem_flatMap, List.mem_dedup, List.mem_append, List.mem_map,
    List.mem_filter, beq_iff_eq]
  constructor
  · rintro ⟨optNet, hon, hr⟩
    rcases optNet with - | n
    · exact absurd hr (List.not_mem_nil r)
    · rcases List.mem_flatMap.mp hr with ⟨t, ht, hmap⟩
      rcases List.mem_map.mp hmap with ⟨p, hp, hrec⟩
      rcases List.mem_filter.mp ht with ⟨htmem, htnet⟩
      rcases List.mem_filter.mp hp with ⟨hpmem, hpnet⟩
      exact ⟨t, htmem, p, hpmem, n, beq_iff_eq.mp htnet, beq_iff_eq.mp hpnet,
        hrec.symm⟩
  · rintro ⟨t, ht, p, hp, n, htnet, hpnet, hr⟩
    refine ⟨some n, Or.inl ⟨t, ht, htnet⟩, ?_⟩
    refine List.mem_flatMap.mpr ⟨t, List.mem_filter.mpr ⟨ht, beq_iff_eq.mpr htnet⟩, ?_⟩
    exact List.mem_map.mpr ⟨p, List.mem_filter.mpr ⟨hp, beq_iff_eq.mpr hpnet⟩, hr.symm⟩

/-- Claim C9: the net cross-reference join returns exactly the rows pairing a
left and a right entity that share a (present) net name, with the label field
joining the two ids by the fixed separator `" - "`; the result has no
duplicate rows; and it is sorted by the key (digit-leading-net rank,
net name, left id, right id), whose order is made explicit in the last
conjunct. -/
theorem C9_net_join (tps pins : List NetRow) :
    (∀ r : JoinRec,
        r ∈ Crit29.judge_io_connector_in_tp_network tps pins ↔
          ∃ t ∈ tps, ∃ p ∈ pins, ∃ n : String,
            t.net = some n ∧ p.net = some n ∧
            r = ⟨t.id, p.id, n, t.id ++ " - " ++ p.id⟩)
    ∧ (Crit29.judge_io_connector_in_tp_network tps pins).Nodup
    ∧ List.Sorted Crit29.row_le (Crit29.judge_io_connector_in_tp_network tps pins)
    ∧ (∀ a b : JoinRec, Crit29.row_le a b ↔
        (Crit29.sort_rank a < Crit29.sort_rank b ∨
          (Crit29.sort_rank a = Crit29.sort_rank b ∧
            (a.net_name < b.net_name ∨
              (a.net_name = b.net_name ∧
                (a.testpoint_id < b.testpoint_id ∨
                  (a.testpoint_id = b.testpoint_id ∧ a.pin_id ≤ b.pin_id))))))) := by
  unfold Crit29.judge_io_connector_in_tp_network
  refine ⟨?_, ?_, ?_, ?_⟩
  · intro r
    by_cases hg : (tps.isEmpty || pins.isEmpty) = true
    · rw [if_pos hg]
      simp only [List.not_mem_nil, false_iff]
      rintro ⟨t, ht, p, hp, -⟩
      rcases Bool.or_eq_true_iff.mp hg with h | h
      · rw [List.isEmpty_iff.mp h] at ht; exact absurd ht (List.not_mem_nil t)
      · rw [List.isEmpty_iff.mp h] at hp; exact absurd hp (List.not_mem_nil p)
    · rw [if_neg hg]
      rw [List.mem_insertionSort, List.mem_dedup]
      exact Crit29.mem_raw_pairs
  · by_cases hg : (tps.isEmpty || pins.isEmpty) = true
    · rw [if_pos hg]; exact List.nodup_nil
    · rw [if_neg hg]
      exact (List.perm_insertionSort Crit29.row_le _).symm.nodup
        (List.nodup_dedup _)
  · by_cases hg : (tps.isEmpty || pins.isEmpty) = true
    · rw [if_pos hg]; exact List.sorted_nil
    · rw [if_neg hg]
      exact List.sorted_insertionSort Crit29.row_le _
  · intro a b
    show Crit29.sort_key a ≤ Crit29.sort_key b ↔ _
    unfold Crit29.sort_key
    rw [Prod.Lex.le_iff]
    constructor
    · rintro (h1 | ⟨h1, h2⟩)
      · exact Or.inl h1
      · refine Or.inr ⟨h1, ?_⟩
        rcases (Prod.Lex.le_iff _ _).mp h2 with h3 | ⟨h3, h4⟩
        · exact Or.inl h3
        · refine Or.inr ⟨h3, ?_⟩
          rcases (Prod.Lex.le_iff _ _).mp h4 with h5 | ⟨h5, h6⟩
          · exact Or.inl h5
          · exact Or.inr ⟨h5, h6⟩
    · rintro (h1 | ⟨h1, (h3 | ⟨h3, (h5 | ⟨h5, h6⟩)⟩)⟩)
      · exact Or.inl h1
      · exact Or.inr ⟨h1, (Prod.Lex.le_iff _ _).mpr (Or.inl h3)⟩
      · exact Or.inr ⟨h1, (Prod.Lex.le_iff _ _).mpr
          (Or.inr ⟨h3, (Prod.Lex.le_iff _ _).mpr (Or.inl h5)⟩)⟩
      · exact Or.inr ⟨h1, (Prod.Lex.le_iff _ _).mpr
          (Or.inr ⟨h3, (Prod.Lex.le_iff _ _).mpr (Or.inr ⟨h5, h6⟩)⟩)⟩

/-- Claim C9, witness: on the spec's example input (left ids `A`, `B` on nets
`N1`, `N2`; right ids `X`, `Y` both on `N1`), the row pairing `A` with `X` on
net `N1`, labelled `"A - X"`, is in the join result. -/
theorem C9_net_join_witness :
    (⟨"A", "X", "N1", "A - X"⟩ : JoinRec) ∈
      Crit29.judge_io_connector_in_tp_network
        [⟨"A", some "N1"⟩, ⟨"B", some "N2"⟩]
        [⟨"X", some "N1"⟩, ⟨"Y", some "N1"⟩] :=
  ((C9_net_join [⟨"A", some "N1"⟩, ⟨"B", some "N2"⟩]
      [⟨"X", some "N1"⟩, ⟨"Y", some "N1"⟩]).1 _).mpr
    ⟨⟨"A", some "N1"⟩, by decide, ⟨"X", some "N1"⟩, by decide, "N1", rfl, rfl, rfl⟩
